import Mathlib

/-!
Verification development for the TechInAsia scraper repository.

The Python sources under `app/` are shallowly embedded below.  The package
`app/scraper/` (browser.py, parser.py, content_extractor.py, main.py) shadows
the legacy monolithic module `app/scraper.py`, so the package files are the
authority; the legacy file duplicates the same parser code verbatim.

Python strings are modelled as Lean `String`, with the Python string
operations (`strip`, `split`, `startswith`, `replace`, `in`, `lower`)
re-implemented over `List Char` by structural recursion so that every
definition evaluates by kernel reduction on concrete inputs.

BeautifulSoup DOM fragments are modelled by the `Node` tree below, and the
BeautifulSoup query methods used by the sources (`find`, `find_all`,
`parent`, `find_parent`, `get_text`, `.text`) are defined over it.
-/

/-! ## Python string primitives (over `List Char`) -/

/-- Python `str.strip()` on a character list: drop whitespace at both ends. -/
def chTrim (l : List Char) : List Char :=
  ((l.dropWhile Char.isWhitespace).reverse.dropWhile Char.isWhitespace).reverse

/-- Python `str.strip()`. -/
def pyStrip (s : String) : String := String.mk (chTrim s.data)

/-- Split a character list at every character satisfying `p`, keeping empty
pieces (the behaviour of Python `str.split(sep)` for a one-character `sep`). -/
def chSplitP (p : Char → Bool) : List Char → List (List Char)
  | [] => [[]]
  | c :: cs =>
    let r := chSplitP p cs
    if p c then [] :: r
    else
      match r with
      | [] => [[c]]
      | h :: t => (c :: h) :: t

/-- Python `s.split('/')`. -/
def pySplitSlash (s : String) : List String :=
  ((chSplitP (fun c => c = ('/'))) s.data).map String.mk

/-- Python `s.split()` (split on whitespace runs, dropping empty pieces). -/
def pySplitWs (s : String) : List String :=
  (((chSplitP Char.isWhitespace) s.data).map String.mk).filter (fun w => w ≠ "")

/-- Python `prefix in s` would be `isSub prefix s`; substring containment. -/
def isSub (needle hay : String) : Bool :=
  hay.data.tails.any (fun t => needle.data.isPrefixOf t)

/-- Python `s.startswith(pre)`. -/
def pyStartswith (s pre : String) : Bool := pre.data.isPrefixOf s.data

/-- Python `s.lower()` (ASCII case folding suffices for the sources' regexes). -/
def pyLower (s : String) : String := String.mk (s.data.map Char.toLower)

/-- Fuel-driven worker for `pyReplace`; the fuel is the length of the subject
list, which bounds the number of steps since every step consumes at least one
character (the sources only replace non-empty needles). -/
def pyReplaceAux (old new : List Char) : Nat → List Char → List Char
  | 0, l => l
  | _ + 1, [] => []
  | fuel + 1, c :: cs =>
    if old.isPrefixOf (c :: cs) then new ++ pyReplaceAux old new fuel ((c :: cs).drop old.length)
    else c :: pyReplaceAux old new fuel cs

/-- Python `s.replace(old, new)`: replace all non-overlapping occurrences,
left to right. -/
def pyReplace (s old new : String) : String :=
  String.mk (pyReplaceAux old.data new.data s.data.length s.data)

/-- Python `' '.join(l)`. -/
def joinSpace : List String → String
  | [] => ""
  | [x] => x
  | x :: y :: t => x ++ " " ++ joinSpace (y :: t)

/-- Python truthiness of an optional string: `None` and `''` are falsy. -/
def pyTruthy : Option String → Bool
  | none => false
  | some s => !(s == "")

/-! ## DOM model (BeautifulSoup fragments) -/

/-- A DOM node: either a text node (a BeautifulSoup `NavigableString`) or an
element with a tag name, an attribute list and children.  The `class`
attribute is stored as its literal string and split on demand. -/
inductive Node where
  | textNode (s : String)
  | elem (tag : String) (attrs : List (String × String)) (children : List Node)
deriving Repr

mutual

/-- All descendants of a node in document (pre-)order, paired with their
ancestor chain inside the given root, nearest ancestor first (the root itself
is the last entry of each chain).  The node itself is not listed. -/
def Node.desc : Node → List (Node × List Node)
  | .textNode _ => []
  | .elem t a cs => Node.descList (Node.elem t a cs) cs

/-- Descendant enumeration of a list of siblings below `parent`. -/
def Node.descList (parent : Node) : List Node → List (Node × List Node)
  | [] => []
  | c :: cs =>
    (c, [parent]) :: (Node.desc c).map (fun p => (p.1, p.2 ++ [parent]))
      ++ Node.descList parent cs

end

/-- Is the node an element (BeautifulSoup `Tag`)? -/
def Node.isElem : Node → Bool
  | .elem _ _ _ => true
  | .textNode _ => false

/-- Tag name of an element. -/
def Node.tagName : Node → Option String
  | .elem t _ _ => some t
  | .textNode _ => none

/-- First value of an attribute, like BeautifulSoup `tag.get(key)`. -/
def Node.attr : Node → String → Option String
  | .elem _ attrs _, k => (attrs.find? (fun p => p.1 = k)).map (fun p => p.2)
  | .textNode _, _ => none

/-- The CSS class tokens of an element (the `class` attribute split on
whitespace); BeautifulSoup matches a `class_` filter against each token. -/
def Node.classTokens (n : Node) : List String :=
  match n.attr ("class") with
  | some c => pySplitWs c
  | none => []

/-- Does the element carry the given CSS class token? -/
def Node.hasClass (n : Node) (c : String) : Bool := n.classTokens.contains c

/-- Element descendants in document order: the search space of
`find` / `find_all` (which never match the node itself). -/
def Node.elements (n : Node) : List Node :=
  (n.desc.map (fun p => p.1)).filter Node.isElem

/-- BeautifulSoup `find_all(pred)` over element descendants. -/
def findAll (p : Node → Bool) (n : Node) : List Node :=
  n.elements.filter p

/-- BeautifulSoup `find(pred)`: first matching element descendant. -/
def findFirstNode (p : Node → Bool) (n : Node) : Option Node :=
  (findAll p n).head?

/-- First matching element descendant together with its ancestor chain inside
the root (nearest first, ending with the root). -/
def findFirstWithAnc (p : Node → Bool) (n : Node) : Option (Node × List Node) :=
  (n.desc.filter (fun q => q.1.isElem && p q.1)).head?

/-- The descendant `NavigableString`s of a node, in document order. -/
def Node.strings (n : Node) : List String :=
  n.desc.filterMap (fun p =>
    match p.1 with
    | .textNode s => some s
    | .elem _ _ _ => none)

/-- BeautifulSoup `.text` / `get_text()`: concatenation of all descendant
strings. -/
def Node.rawText (n : Node) : String := String.join n.strings

/-- BeautifulSoup `get_text(strip=True)`: each descendant string is stripped
and the (non-empty) pieces concatenated. -/
def Node.getTextStrip (n : Node) : String := String.join (n.strings.map pyStrip)

/-! ## `app/models.py` -/

/-- The `Article` pydantic model (`app/models.py`).  Optional fields are
`Option String`; `title` and `relative_time` are plain `str` fields with
defaults, so passing `None` for them raises a `ValidationError`. -/
structure Article where
  article_id : Option String
  title : String
  article_url : Option String
  source : Option String
  source_url : Option String
  image_url : Option String
  posted_time : Option String
  relative_time : String
  categories : List String
  tags : List String
  content : Option String
  scraped_at : String
deriving Repr, DecidableEq

/-- The `validate_urls` field validator of `Article` (mode `before`) on the
fields `article_url`, `source_url`, `image_url`: the literal value `'N/A'`
becomes `None`; everything else passes through. -/
def validate_urls (v : Option String) : Option String :=
  if v = some ("N/A") then none else v

/-- `ScraperConfig` (`app/models.py`): the fields, with Python `int` as `Int`
and `float` as `ℚ`; viewport dicts are modelled as width/height pairs. -/
structure ScraperConfig where
  num_articles : Int
  max_scrolls : Int
  timeout : Int
  retry_count : Int
  batch_size : Int
  base_url : String
  output_dir : String
  category : String
  filename_prefix : String
  scroll_iterations_range : Int × Int
  scroll_distance_range : Int × Int
  mouse_movements_range : Int × Int
  sleep_scroll_range : ℚ × ℚ
  sleep_mouse_range : ℚ × ℚ
  url_delay_range : ℚ × ℚ
  randomize_user_agent : Bool
  randomize_viewport : Bool
  user_agents : List String
  viewport_sizes : List (Int × Int)
  content_selectors : List String
  log_file : String
  log_level : String

/-- Validator `validate_positive_int` (fields `num_articles`, `max_scrolls`,
`retry_count`, `batch_size`): rejects `v <= 0`.  The `isinstance` check is
type-level here. -/
def validate_positive_int (v : Int) : Bool := decide (0 < v)

/-- Validator `validate_int_range` (fields `scroll_iterations_range`,
`scroll_distance_range`, `mouse_movements_range`): rejects `v[0] > v[1]` and
`v[0] <= 0`; the tuple-shape checks are type-level. -/
def validate_int_range (v : Int × Int) : Bool :=
  decide (v.1 ≤ v.2) && decide (0 < v.1)

/-- Validator `validate_float_range` (fields `sleep_scroll_range`,
`sleep_mouse_range`, `url_delay_range`): rejects `v[0] > v[1]` and
`v[0] < 0`. -/
def validate_float_range (v : ℚ × ℚ) : Bool :=
  decide (v.1 ≤ v.2) && decide (0 ≤ v.1)

/-- Validator `validate_non_empty_list` (fields `user_agents`,
`viewport_sizes`, `content_selectors`). -/
def validate_non_empty_list {α : Type} (v : List α) : Bool := !v.isEmpty

/-- Validator `validate_non_empty_string` (field `category`). -/
def validate_non_empty_string (v : String) : Bool := !(v == "")

/-- Construction of a `ScraperConfig` succeeds exactly when every field
validator accepts; this is the conjunction of all validators declared in
`app/models.py`.  Note that `timeout` (and the string fields other than
`category`) carry no validator. -/
def scraper_config_valid (c : ScraperConfig) : Bool :=
  validate_positive_int c.num_articles &&
  validate_positive_int c.max_scrolls &&
  validate_positive_int c.retry_count &&
  validate_positive_int c.batch_size &&
  validate_int_range c.scroll_iterations_range &&
  validate_int_range c.scroll_distance_range &&
  validate_int_range c.mouse_movements_range &&
  validate_float_range c.sleep_scroll_range &&
  validate_float_range c.sleep_mouse_range &&
  validate_float_range c.url_delay_range &&
  validate_non_empty_list c.user_agents &&
  validate_non_empty_list c.viewport_sizes &&
  validate_non_empty_list c.content_selectors &&
  validate_non_empty_string c.category

/-- The default field values of `ScraperConfig` (`app/models.py`). -/
def defaultScraperConfig : ScraperConfig where
  num_articles := 50
  max_scrolls := 10
  timeout := 20000
  retry_count := 5
  batch_size := 100
  base_url := "https://www.techinasia.com/news"
  output_dir := "output"
  category := "artificial-intelligence"
  filename_prefix := "techinasia_ai_news"
  scroll_iterations_range := (1, 3)
  scroll_distance_range := (50, 200)
  mouse_movements_range := (1, 3)
  sleep_scroll_range := (1/10, 1/2)
  sleep_mouse_range := (1/10, 3/10)
  url_delay_range := (1, 3)
  randomize_user_agent := true
  randomize_viewport := true
  user_agents := [
    "Mozilla/5.0 (Windows NT 10.0; Win64; x64) AppleWebKit/537.36 (KHTML, like Gecko) Chrome/91.0.4472.124 Safari/537.36",
    "Mozilla/5.0 (Macintosh; Intel Mac OS X 10_15_7) AppleWebKit/537.36 (KHTML, like Gecko) Chrome/91.0.4472.124 Safari/537.36",
    "Mozilla/5.0 (X11; Linux x86_64) AppleWebKit/537.36 (KHTML, like Gecko) Chrome/91.0.4472.124 Safari/537.36",
    "Mozilla/5.0 (iPhone; CPU iPhone OS 14_6 like Mac OS X) AppleWebKit/605.1.15 (KHTML, like Gecko) Version/14.1.1 Mobile/15E148 Safari/604.1",
    "Mozilla/5.0 (Windows NT 10.0; Win64; x64) AppleWebKit/537.36 (KHTML, like Gecko) Chrome/91.0.4472.124 Safari/537.36 Edg/91.0.864.59",
    "Mozilla/5.0 (Macintosh; Intel Mac OS X 10_15_7) AppleWebKit/537.36 (KHTML, like Gecko) Chrome/91.0.4472.124 Safari/537.36 Edg/91.0.864.59",
    "Opera/9.80 (Windows NT 6.1; WOW64) Presto/2.12.388 Version/12.18",
    "Safari/537.36 (iPhone; CPU iPhone OS 14_6 like Mac OS X) AppleWebKit/605.1.15 (KHTML, like Gecko) Version/14.1.1 Mobile/15E148 Safari/604.1",
    "Edge/91.0.864.59 (Windows NT 10.0; Win64; x64) AppleWebKit/537.36 (KHTML, like Gecko) Chrome/91.0.4472.124 Safari/537.36"
  ]
  viewport_sizes := [(1920, 1080), (1366, 768), (1280, 720), (1440, 900),
    (1280, 1024), (1024, 768), (1600, 900), (1680, 1050)]
  content_selectors := [
    "div#content.content",
    "div.jsx-3810287742.jsx-430771670.content",
    "article.content",
    "div.article-content",
    "div.article-body",
    "div.story-content",
    "div.story-body",
    "div.post-content",
    "div.entry-content",
    "main article",
    "main .content",
    "article .content",
    ".article__body",
    ".article__content",
    ".post__content",
    ".post-body"
  ]
  log_file := "logs/scraper.log"
  log_level := "INFO"

/-! ## `app/scraper/parser.py` (`ArticleParser`)

`parse_article` receives the article element plus `outerAncestors`, the chain
of ancestors of that element in the surrounding document (nearest first);
BeautifulSoup's `content_div.parent` and `content_div.find_parent('article')`
are resolved against the ancestors inside the fragment followed by this outer
chain.  `dateutil.parser.parse` composed with `strftime` is an external
library call and is passed in as the oracle `parse_datetime` (returning
`none` when parsing raises, in which case `posted_time` stays `None`). -/

/-- The `content_div` selection at the top of `parse_article`: first a `div`
with class `post-content`, then any `div` whose class has a token containing
`content` or `article`, else the article element itself.  Returns the chosen
container and its ancestor chain inside the article element (empty when the
article element itself is chosen). -/
def content_container (article : Node) : Node × List Node :=
  match findFirstWithAnc (fun n => n.tagName == some ("div") && n.hasClass ("post-content")) article with
  | some r => r
  | none =>
    match findFirstWithAnc (fun n => n.tagName == some ("div") &&
        n.classTokens.any (fun c => !(c == "") && (isSub ("content") c || isSub ("article") c))) article with
    | some r => r
    | none => (article, [])

/-- `content_div.parent`: nearest ancestor of the content container, inside
the fragment first, then in the outer chain. -/
def cd_parent (article : Node) (outerAncestors : List Node) : Option Node :=
  ((content_container article).2 ++ outerAncestors).head?

/-- `content_div.find_parent('article')`: nearest ancestor tagged `article`. -/
def cd_article_ancestor (article : Node) (outerAncestors : List Node) : Option Node :=
  ((content_container article).2 ++ outerAncestors).find? (fun n => n.tagName == some ("article"))

/-- `find_all('a', href=True)`: anchor descendants carrying an `href`
attribute (possibly empty). -/
def anchors_with_href (n : Node) : List Node :=
  findAll (fun m => m.tagName == some ("a") && (m.attr ("href")).isSome) n

/-- `re.search(r'/([^/]+)$', href)`: the last `/`-separated segment, provided
the string contains a slash and the segment is non-empty. -/
def lastSegMatch (href : String) : Option String :=
  let ps := pySplitSlash href
  if 2 ≤ ps.length ∧ ps.getLastD ("") ≠ "" then some (ps.getLastD ("")) else none

/-- The host part after `://` for `domainMatch`: optionally skip `www.`, then
take the non-empty run of characters up to the next `/` (backtracking to keep
`www.` in the group when the run after it is empty, as the regex does). -/
def domainAt (s : String) : Option String :=
  let afterW := if pyStartswith s ("www.") then String.mk (s.data.drop 4) else s
  let d1 := String.mk (afterW.data.takeWhile (fun c => c ≠ ('/')))
  if d1 ≠ "" then some d1
  else
    let d2 := String.mk (s.data.takeWhile (fun c => c ≠ ('/')))
    if d2 ≠ "" then some d2 else none

/-- Scan for the leftmost match of `https?://(?:www\.)?([^/]+)`. -/
def domainMatchAux : List Char → Option String
  | [] => none
  | c :: rest =>
    let here :=
      if ("https://").data.isPrefixOf (c :: rest) then domainAt (String.mk ((c :: rest).drop 8))
      else if ("http://").data.isPrefixOf (c :: rest) then domainAt (String.mk ((c :: rest).drop 7))
      else none
    match here with
    | some d => some d
    | none => domainMatchAux rest

/-- `re.search(r'https?://(?:www\.)?([^/]+)', url)`, group 1. -/
def domainMatch (url : String) : Option String := domainMatchAux url.data

/-- The body of the usable-link branch in `_extract_article_id_and_url`:
build the absolute URL (prefixing the site origin unless the href already
starts with `http`), derive the id from the last path segment, and fall back
to the domain name when the segment is empty. -/
def mkIdUrl (href : String) : Option String × Option String :=
  let article_url := if !(pyStartswith href ("http")) then ("https://www.techinasia.com" ++ href) else href
  let article_id0 :=
    match lastSegMatch href with
    | some s => s
    | none => (pySplitSlash href).getLastD ("")
  let article_id := if article_id0 = "" then domainMatch article_url else some article_id0
  (article_id, some article_url)

/-- The `for link in article_links` loop: first link whose `href` is truthy
and non-blank wins; otherwise `(None, None)`. -/
def first_usable_link : List Node → Option String × Option String
  | [] => (none, none)
  | link :: rest =>
    match link.attr ("href") with
    | some href => if href ≠ "" ∧ pyStrip href ≠ "" then mkIdUrl href else first_usable_link rest
    | none => first_usable_link rest

/-- `_extract_article_id_and_url`: anchors of the content container, else of
its parent, else of the enclosing `article` element; then the first usable
link. -/
def extract_article_id_and_url (content_div : Node) (par : Option Node) (artAnc : Option Node) :
    Option String × Option String :=
  let links0 := anchors_with_href content_div
  let links1 :=
    if links0.isEmpty then
      match par with
      | some p => anchors_with_href p
      | none => links0
    else links0
  let links2 :=
    if links1.isEmpty then
      match artAnc with
      | some ae => anchors_with_href ae
      | none => links1
    else links1
  first_usable_link links2

/-- `_extract_title`: `h3.post-title`, else any `h3`, else the first anchor's
text; `None` when the container has neither. -/
def extract_title (content_div : Node) : Option String :=
  let t0 := findFirstNode (fun n => n.tagName == some ("h3") && n.hasClass ("post-title")) content_div
  let t1 :=
    match t0 with
    | some _ => t0
    | none => findFirstNode (fun n => n.tagName == some ("h3")) content_div
  match t1 with
  | some te => some te.getTextStrip
  | none =>
    match (findAll (fun n => n.tagName == some ("a")) content_div).head? with
    | some l => some l.getTextStrip
    | none => none

/-- `_extract_source_info`: `span.post-source-name`, else the first span with
short (<30 chars, stripped) non-empty text; `a.post-source`, else the second
anchor; relative source URLs get the site origin prefixed. -/
def extract_source_info (content_div : Node) : Option String × Option String :=
  let se0 := findFirstNode (fun n => n.tagName == some ("span") && n.hasClass ("post-source-name")) content_div
  let se :=
    match se0 with
    | some _ => se0
    | none =>
      (findAll (fun n => n.tagName == some ("span")) content_div).find?
        (fun sp => !(sp.rawText == "") && decide ((pyStrip sp.rawText).length < 30))
  let source := se.map (fun sp => pyStrip sp.rawText)
  let sl0 := findFirstNode (fun n => n.tagName == some ("a") && n.hasClass ("post-source")) content_div
  let sl :=
    match sl0 with
    | some _ => sl0
    | none =>
      let links := findAll (fun n => n.tagName == some ("a")) content_div
      if 1 < links.length then links[1]? else none
  let source_url0 := sl.bind (fun l => l.attr ("href"))
  let source_url :=
    match source_url0 with
    | some u => if u ≠ "" ∧ !(pyStartswith u ("http")) then some ("https://www.techinasia.com" ++ u) else some u
    | none => none
  (source, source_url)

/-- Group 1 of `re.search(r'url\([\'"]?(.*?)[\'"]?\)', style)` given the text
after `url(`: the lazily matched content stops at the first `)`, shedding one
surrounding quote on each side when present. -/
def cssUrlBody (s : List Char) : Option String :=
  let t :=
    match s with
    | c :: cs => if c = ('\'') || c = ('"') then cs else c :: cs
    | [] => []
  if t.contains (')') then
    let g := t.takeWhile (fun c => c ≠ (')'))
    let g2 :=
      match g.reverse with
      | c :: gs => if c = ('\'') || c = ('"') then gs.reverse else g
      | [] => g
    some (String.mk g2)
  else none

/-- Scan a `style` value for the leftmost `url(...)` occurrence. -/
def cssUrlAux : List Char → Option String
  | [] => none
  | c :: rest =>
    let here :=
      if ("url(").data.isPrefixOf (c :: rest) then cssUrlBody ((c :: rest).drop 4)
      else none
    match here with
    | some d => some d
    | none => cssUrlAux rest

/-- `re.search(r'url\([\'"]?(.*?)[\'"]?\)', style)`, group 1. -/
def cssUrlMatch (style : String) : Option String := cssUrlAux style.data

/-- `_extract_image_url`: `div.post-image > img[src]`, else any `img[src]`,
else the first element with a `background-image` style, via the `url(...)`
regex. -/
def extract_image_url (article : Node) : Option String :=
  let r1 :=
    match findFirstNode (fun n => n.tagName == some ("div") && n.hasClass ("post-image")) article with
    | some d =>
      match findFirstNode (fun n => n.tagName == some ("img")) d with
      | some img =>
        match img.attr ("src") with
        | some src => if src ≠ "" then some src else none
        | none => none
      | none => none
    | none => none
  match r1 with
  | some s => some s
  | none =>
    let r2 :=
      match findFirstNode (fun n => n.tagName == some ("img")) article with
      | some img =>
        match img.attr ("src") with
        | some src => if src ≠ "" then some src else none
        | none => none
      | none => none
    match r2 with
    | some s => some s
    | none =>
      match (findAll (fun n => (n.attr ("style")).isSome &&
          isSub ("background-image") ((n.attr ("style")).getD (""))) article).head? with
      | some el => cssUrlMatch ((el.attr ("style")).getD (""))
      | none => none

/-- `re.search(r'(ago|hour|day|week|month|year|yesterday|today)', text,
re.IGNORECASE)` as a Boolean. -/
def timePhraseHit (t : String) : Bool :=
  [("ago"), ("hour"), ("day"), ("week"), ("month"), ("year"), ("yesterday"), ("today")].any
    (fun w => isSub w (pyLower t))

/-- `_extract_time_info`: a `<time>` element yields its stripped text as the
relative time and its parsed `datetime` attribute as the absolute time;
without one, the first span matching the recency regex yields only a
relative time; otherwise `(None, 'N/A')`. -/
def extract_time_info (parse_datetime : String → Option String) (article : Node) :
    Option String × String :=
  match findFirstNode (fun n => n.tagName == some ("time")) article with
  | none =>
    match (findAll (fun n => n.tagName == some ("span")) article).find?
        (fun sp => timePhraseHit (pyStrip sp.rawText)) with
    | some sp => (none, pyStrip sp.rawText)
    | none => (none, "N/A")
  | some te =>
    let relative_time := pyStrip te.rawText
    let posted_time :=
      match te.attr ("datetime") with
      | some dt => if dt ≠ "" then parse_datetime dt else none
      | none => none
    (posted_time, relative_time)

/-- `_extract_categories_and_tags`: texts of `a.category-link` anchors,
falling back to the configured category when none are found (and the
configured category is truthy); texts of `a.tag-link` anchors, no fallback. -/
def extract_categories_and_tags (config : ScraperConfig) (article : Node) :
    List String × List String :=
  let category_links := findAll (fun n => n.tagName == some ("a") && n.hasClass ("category-link")) article
  let categories0 :=
    if !category_links.isEmpty then
      (category_links.map (fun l => pyStrip l.rawText)).filter (fun t => t ≠ "")
    else []
  let categories :=
    if categories0.isEmpty && !(config.category == "") then [config.category] else categories0
  let tag_links := findAll (fun n => n.tagName == some ("a") && n.hasClass ("tag-link")) article
  let tags :=
    if !tag_links.isEmpty then
      (tag_links.map (fun l => pyStrip l.rawText)).filter (fun t => t ≠ "")
    else []
  (categories, tags)

/-- `ArticleParser.parse_article`: select the content container, require a
truthy id and URL, then build the `Article`.  A `None` title makes the
pydantic constructor raise, which the surrounding `except` turns into `None`.
`scraped_at` is the pydantic default `datetime.now().strftime(...)` captured
at construction time, passed here explicitly as `now`. -/
def parse_article (config : ScraperConfig) (parse_datetime : String → Option String)
    (article : Node) (outerAncestors : List Node) (now : String) : Option Article :=
  let content_div := (content_container article).1
  let idurl := extract_article_id_and_url content_div
    (cd_parent article outerAncestors) (cd_article_ancestor article outerAncestors)
  if pyTruthy idurl.1 && pyTruthy idurl.2 then
    match extract_title content_div with
    | none => none
    | some title =>
      let si := extract_source_info content_div
      let ti := extract_time_info parse_datetime article
      let ct := extract_categories_and_tags config article
      some {
        article_id := idurl.1
        title := title
        article_url := validate_urls idurl.2
        source := si.1
        source_url := validate_urls si.2
        image_url := validate_urls (extract_image_url article)
        posted_time := ti.1
        relative_time := ti.2
        categories := ct.1
        tags := ct.2
        content := none
        scraped_at := now }
  else none

/-- `ArticleParser.is_valid_article`: a record must have a truthy
`article_url`. -/
def is_valid_article (a : Article) : Bool := pyTruthy a.article_url

/-! ## `app/scraper/browser.py` (`BrowserManager.navigate_to_url`)

The outcome of each `page.goto` call is an input: success, a
`PlaywrightTimeoutError`, or any other exception.  The random jitter streams
`random.uniform(0,1)` (timeout path) and `random.uniform(1,3)` (other-error
path) are inputs `jT`, `jO`.  The function returns the Boolean result, the
number of `page.goto` attempts made, and the list of back-off sleeps in
order.  (Page recreation on "Connection closed" only mutates the page
handle; it does not affect these observables.) -/

/-- Outcome of one `page.goto` call. -/
inductive NavOutcome where
  | success
  | timeoutErr
  | otherErr
deriving Repr, DecidableEq

/-- The `for attempt in range(retry_count)` loop of `navigate_to_url`; the
fuel is the number of remaining loop iterations. -/
def navLoop (retry_count : Nat) (oc : Nat → NavOutcome) (jT jO : Nat → ℚ) :
    Nat → Nat → Bool × Nat × List ℚ
  | _, 0 => (false, 0, [])
  | attempt, fuel + 1 =>
    match oc attempt with
    | NavOutcome.success => (true, 1, [])
    | NavOutcome.timeoutErr =>
      if attempt < retry_count - 1 then
        let rest := navLoop retry_count oc jT jO (attempt + 1) fuel
        (rest.1, rest.2.1 + 1, ((2 : ℚ) ^ attempt + jT attempt) :: rest.2.2)
      else (false, 1, [])
    | NavOutcome.otherErr =>
      if attempt < retry_count - 1 then
        let rest := navLoop retry_count oc jT jO (attempt + 1) fuel
        (rest.1, rest.2.1 + 1, ((3 : ℚ) ^ attempt + jO attempt) :: rest.2.2)
      else (false, 1, [])

/-- `BrowserManager.navigate_to_url`: up to `retry_count` attempts; a timeout
failure that is not the last attempt sleeps `2 ** attempt +
random.uniform(0, 1)`; any other failing exception that is not the last
attempt sleeps `3 ** attempt + random.uniform(1, 3)`; the last failure
returns `False` without sleeping. -/
def navigate_to_url (retry_count : Nat) (oc : Nat → NavOutcome) (jT jO : Nat → ℚ) :
    Bool × Nat × List ℚ :=
  navLoop retry_count oc jT jO 0 retry_count

/-- The sleep the code performs after failing attempt `k` (when `k` is not
the last attempt). -/
def navSleep (oc : Nat → NavOutcome) (jT jO : Nat → ℚ) (k : Nat) : ℚ :=
  match oc k with
  | NavOutcome.success => 0
  | NavOutcome.timeoutErr => (2 : ℚ) ^ k + jT k
  | NavOutcome.otherErr => (3 : ℚ) ^ k + jO k

/-! ## `app/scraper/main.py` (`TechInAsiaScraper.scrape_article_list` /
`scrape_article_contents`)

The per-scroll page snapshots are an input `pages : Nat → List (Option
Article)`, giving for scroll iteration `i` the results of
`parse_article` on the article elements selected from the snapshot.
Navigation success is the input `navOk`.  The loop-iteration count returned
alongside the article list counts the `simulate_scrolling` calls. -/

/-- The `for article_element in article_elements` body: keep a parsed article
if it is valid and its id is unseen, recording the id; stop early at the
quota. -/
def listing_process_elements (num_articles : Nat) :
    List (Option Article) → List Article → List (Option String) → List Article × List (Option String)
  | [], articles, processed => (articles, processed)
  | none :: rest, articles, processed => listing_process_elements num_articles rest articles processed
  | some a :: rest, articles, processed =>
    if is_valid_article a = true ∧ a.article_id ∉ processed then
      let articles2 := articles ++ [a]
      let processed2 := a.article_id :: processed
      if num_articles ≤ articles2.length then (articles2, processed2)
      else listing_process_elements num_articles rest articles2 processed2
    else listing_process_elements num_articles rest articles processed

/-- The `while scroll_count < max_scrolls and len(articles) <
num_articles` loop; the fuel is `max_scrolls - scroll_count`.  Returns the
accumulated articles and the number of iterations executed. -/
def listing_scroll_loop (num_articles : Nat) (pages : Nat → List (Option Article)) :
    Nat → Nat → List Article → List (Option String) → List Article × Nat
  | 0, scroll_count, articles, _ => (articles, scroll_count)
  | fuel + 1, scroll_count, articles, processed =>
    if articles.length < num_articles then
      let step := listing_process_elements num_articles (pages scroll_count) articles processed
      listing_scroll_loop num_articles pages fuel (scroll_count + 1) step.1 step.2
    else (articles, scroll_count)

/-- `TechInAsiaScraper.scrape_article_list`: abort with no articles if
navigation fails, else run the scroll loop from an empty accumulator and the
initially empty `processed_article_ids` set. -/
def scrape_article_list (num_articles max_scrolls : Nat) (navOk : Bool)
    (pages : Nat → List (Option Article)) : List Article × Nat :=
  if navOk then listing_scroll_loop num_articles pages max_scrolls 0 [] []
  else ([], 0)

/-- The record built at `main.py:119-121`: `article.model_dump()` with
`content` overwritten, fed back through `Article(**article_data)`, whose
`validate_urls` runs again on the three URL fields. -/
def enrich_with_content (a : Article) (content : String) : Article :=
  { a with
    content := some content
    article_url := validate_urls a.article_url
    source_url := validate_urls a.source_url
    image_url := validate_urls a.image_url }

/-- The per-article body of `scrape_article_contents`: a truthy extracted
content yields the enriched record; otherwise the article only bumps the
incomplete counter and no record is produced. -/
def enrich_step (a : Article) (content : Option String) : Option Article :=
  match content with
  | some c => if c ≠ "" then some (enrich_with_content a c) else none
  | none => none

/-! ## `app/scraper/content_extractor.py` (`ContentExtractor`)

The BeautifulSoup selector probes of `_extract_content_from_html` touch an
external CSS engine, so the function takes the per-selector results as
inputs: `tiaHits`/`cfgHits` list, for each selector in order, the
`get_text(strip=True)` of its first match (`none` when no element matched),
and `paragraphTexts` lists the stripped texts of all `<p>` elements.  The
boilerplate cleanup and the length-based JavaScript fallback are modelled in
full. -/

/-- The footer phrases stripped by `_extract_content_from_html`. -/
def footer_texts : List String :=
  ["Copyright © 2025 Tech in Asia. All Rights Reserved.",
   "A member ofThe Business Times.",
   "If you're seeing this message, that meansJavaScript has been disabled on your browser.",
   "Please enable JavaScript"]

/-- Remove the footer phrases, then `' '.join(content_text.split())`. -/
def cleanupContent (s : String) : String :=
  let s1 := footer_texts.foldl (fun acc t => pyReplace acc t ("")) s
  joinSpace (pySplitWs s1)

/-- The selector loops of `_extract_content_from_html`: first selector whose
element exists and has non-empty text wins. -/
def firstSelectorText : List (Option String) → Option String
  | [] => none
  | none :: rest => firstSelectorText rest
  | some t :: rest => if t ≠ "" then some t else firstSelectorText rest

/-- `ContentExtractor._extract_content_from_html`: site-specific selectors,
then configured selectors, then the all-paragraphs join; a surviving text is
cleaned up (which may leave it empty), and `None` is returned only when
every stage produced nothing. -/
def extract_content_from_html (tiaHits cfgHits : List (Option String))
    (paragraphTexts : List String) : Option String :=
  let c1 := firstSelectorText tiaHits
  let c2 :=
    match c1 with
    | some t => some t
    | none => firstSelectorText cfgHits
  let c3 :=
    match c2 with
    | some t => some t
    | none =>
      if paragraphTexts.isEmpty then none
      else
        let joined := joinSpace (paragraphTexts.filter (fun t => t ≠ ""))
        if joined ≠ "" then some joined else none
  match c3 with
  | some t => some (cleanupContent t)
  | none => none

/-- Lines 119-131 of `extract_article_content`: when the HTML-derived
`content` is truthy and shorter than 200 characters, attempt the JavaScript
extraction (`js` is its result, `none` when it raised or found nothing) and
keep the longer of the two.  Returns the final content and whether the
fallback was attempted. -/
def contentLengthFallback (content : Option String) (js : Option String) :
    Option String × Bool :=
  match content with
  | none => (none, false)
  | some s =>
    if s ≠ "" ∧ s.length < 200 then
      match js with
      | some t => if t ≠ "" ∧ s.length < t.length then (some t, true) else (some s, true)
      | none => (some s, true)
    else (some s, false)

/-! ## Concrete fixtures -/

/-- The scenario fragment of C9: one `article.post-card` with a single anchor
`href="/my-post"` whose text is `Hello`, no time element, no taxonomy
links. -/
def domC9 : Node :=
  Node.elem ("article") [("class", "post-card")]
    [Node.elem ("a") [("href", "/my-post")] [Node.textNode ("Hello")]]

/-- The record `parse_article` produces on `domC9`. -/
def articleC9 (cat : String) (now : String) : Article where
  article_id := some ("my-post")
  title := "Hello"
  article_url := some ("https://www.techinasia.com/my-post")
  source := none
  source_url := none
  image_url := none
  posted_time := none
  relative_time := "N/A"
  categories := [cat]
  tags := []
  content := none
  scraped_at := now

/-- A fragment whose only anchor has an empty `href`. -/
def domEmptyHref : Node :=
  Node.elem ("article") [("class", "post-card")]
    [Node.elem ("a") [("href", "")] [Node.textNode ("x")]]

/-- A valid article used as first-page content in the C6 counterexample. -/
def articleC6 : Article where
  article_id := some ("first-page-post")
  title := "First"
  article_url := some ("https://www.techinasia.com/first-page-post")
  source := none
  source_url := none
  image_url := none
  posted_time := none
  relative_time := "N/A"
  categories := []
  tags := []
  content := none
  scraped_at := "2025-01-01 10:00:00"

/-- Page snapshots whose first page contains exactly `articleC6`. -/
def pagesC6 : Nat → List (Option Article) := fun _ => [some articleC6]

/-! ## Claim C1 -/

/-- Claim C1 (corrected): with `retry_count = 3` and every `page.goto`
raising, `navigate_to_url` returns `False` after exactly 3 attempts with a
sleep between consecutive attempts and none after the last — but the sleep
is `2 ** attempt + uniform(0,1)` only for timeout errors; any other
exception sleeps `3 ** attempt + uniform(1,3)`. -/
theorem claim_C1_amended (oc : Nat → NavOutcome) (jT jO : Nat → ℚ)
    (h : ∀ n, oc n ≠ NavOutcome.success) :
    navigate_to_url 3 oc jT jO = (false, 3, [navSleep oc jT jO 0, navSleep oc jT jO 1]) := by
  have h0 := h 0
  have h1 := h 1
  have h2 := h 2
  cases hc0 : oc 0 <;> cases hc1 : oc 1 <;> cases hc2 : oc 2 <;>
    simp_all [navigate_to_url, navLoop, navSleep]

/-- Witness for C1: all-timeout outcomes with zero jitter give
`(False, 3, [1, 2])`. -/
theorem claim_C1_amended_witness :
    navigate_to_url 3 (fun _ => NavOutcome.timeoutErr) (fun _ => 0) (fun _ => 0) =
      (false, 3, [1, 2]) := by
  have h := claim_C1_amended (fun _ => NavOutcome.timeoutErr) (fun _ => 0) (fun _ => 0)
    (fun n h => NavOutcome.noConfusion h)
  rw [h]
  norm_num [navSleep]

/-- Counterexample to C1 as stated: when every attempt raises a non-timeout
error (jitter `2 ∈ [1,3]`), the code still fails after 3 attempts but the
two sleeps are `[3, 5]`, which no jitter choice in `[0,1)` can write as
`[2^0 + j0, 2^1 + j1]`. -/
theorem claim_C1_counterexample :
    (navigate_to_url 3 (fun _ => NavOutcome.otherErr) (fun _ => 0) (fun _ => 2)).1 = false ∧
    (navigate_to_url 3 (fun _ => NavOutcome.otherErr) (fun _ => 0) (fun _ => 2)).2.1 = 3 ∧
    (navigate_to_url 3 (fun _ => NavOutcome.otherErr) (fun _ => 0) (fun _ => 2)).2.2 = [3, 5] ∧
    ¬ ∃ j : Nat → ℚ, (∀ n, 0 ≤ j n ∧ j n < 1) ∧
      (navigate_to_url 3 (fun _ => NavOutcome.otherErr) (fun _ => 0) (fun _ => 2)).2.2 =
        [(2 : ℚ) ^ (0 : ℕ) + j 0, (2 : ℚ) ^ (1 : ℕ) + j 1] := by
  have hv : navigate_to_url 3 (fun _ => NavOutcome.otherErr) (fun _ => 0) (fun _ => 2) =
      (false, 3, [3, 5]) := by
    norm_num [navigate_to_url, navLoop]
  refine ⟨by rw [hv], by rw [hv], by rw [hv], ?_⟩
  rintro ⟨j, hj, heq⟩
  rw [hv] at heq
  simp only [List.cons.injEq] at heq
  have hj0 := (hj 0).2
  have : (3 : ℚ) = 1 + j 0 := by
    have := heq.1
    norm_num at this
    linarith [this]
  linarith

/-! ## Claim C2 -/

/-- Invariant of the per-element loop: if the accumulated ids are distinct
and all recorded in `processed`, the same holds after processing any
candidate list. -/
theorem listing_process_elements_invariant (num : Nat) :
    ∀ (cands : List (Option Article)) (arts : List Article) (proc : List (Option String)),
      (arts.map Article.article_id).Nodup →
      (∀ a ∈ arts, a.article_id ∈ proc) →
      ((listing_process_elements num cands arts proc).1.map Article.article_id).Nodup ∧
      (∀ a ∈ (listing_process_elements num cands arts proc).1,
        a.article_id ∈ (listing_process_elements num cands arts proc).2) := by
  intro cands
  induction cands with
  | nil =>
    intro arts proc hnd hmem
    exact ⟨hnd, hmem⟩
  | cons c rest ih =>
    intro arts proc hnd hmem
    cases c with
    | none =>
      simpa [listing_process_elements] using ih arts proc hnd hmem
    | some a =>
      by_cases hc : is_valid_article a = true ∧ a.article_id ∉ proc
      · have hnotin : a.article_id ∉ arts.map Article.article_id := by
          intro hin
          rcases List.mem_map.mp hin with ⟨b, hb, hbe⟩
          exact hc.2 (hbe ▸ hmem b hb)
        have hnd2 : ((arts ++ [a]).map Article.article_id).Nodup := by
          simpa [List.nodup_append, hnd] using hnotin
        have hmem2 : ∀ b ∈ arts ++ [a], b.article_id ∈ a.article_id :: proc := by
          intro b hb
          rcases List.mem_append.mp hb with hb1 | hb2
          · exact List.mem_cons_of_mem _ (hmem b hb1)
          · simp at hb2
            subst hb2
            exact List.mem_cons_self _ _
        by_cases hq : num ≤ (arts ++ [a]).length
        · simp only [listing_process_elements, if_pos hc, if_pos hq]
          exact ⟨hnd2, hmem2⟩
        · simp only [listing_process_elements, if_pos hc, if_neg hq]
          exact ih (arts ++ [a]) (a.article_id :: proc) hnd2 hmem2
      · simp only [listing_process_elements, if_neg hc]
        exact ih arts proc hnd hmem

/-- Invariant of the scroll loop, by induction on the remaining fuel. -/
theorem listing_scroll_loop_nodup (num : Nat) (pages : Nat → List (Option Article)) :
    ∀ (fuel sc : Nat) (arts : List Article) (proc : List (Option String)),
      (arts.map Article.article_id).Nodup →
      (∀ a ∈ arts, a.article_id ∈ proc) →
      ((listing_scroll_loop num pages fuel sc arts proc).1.map Article.article_id).Nodup := by
  intro fuel
  induction fuel with
  | zero =>
    intro sc arts proc hnd _
    simpa [listing_scroll_loop] using hnd
  | succ n ih =>
    intro sc arts proc hnd hmem
    by_cases hlt : arts.length < num
    · simp only [listing_scroll_loop, if_pos hlt]
      obtain ⟨h1, h2⟩ := listing_process_elements_invariant num (pages sc) arts proc hnd hmem
      exact ih (sc + 1) _ _ h1 h2
    · simpa [listing_scroll_loop, if_neg hlt] using hnd

/-- Claim C2 (confirmed): in one listing-phase run, no two records appended
to the result list share an `article_id` — an article is appended only when
its id is absent from `processed_article_ids`, and the id is added upon
acceptance. -/
theorem claim_C2 (num_articles max_scrolls : Nat) (navOk : Bool)
    (pages : Nat → List (Option Article)) :
    ((scrape_article_list num_articles max_scrolls navOk pages).1.map Article.article_id).Nodup := by
  cases navOk with
  | false => simp [scrape_article_list]
  | true =>
    simp only [scrape_article_list, if_pos]
    exact listing_scroll_loop_nodup num_articles pages max_scrolls 0 [] []
      (by simp) (by simp)

/-! ## Claim C3 -/

/-- When every collected link's `href` is the empty string, the usable-link
loop finds nothing. -/
theorem first_usable_link_all_empty :
    ∀ (links : List Node), (∀ n ∈ links, n.attr ("href") = some ("")) →
      first_usable_link links = (none, none) := by
  intro links
  induction links with
  | nil => intro _; rfl
  | cons l rest ih =>
    intro h
    have hl := h l (List.mem_cons_self _ _)
    simp only [first_usable_link, hl]
    exact ih (fun n hn => h n (List.mem_cons_of_mem _ hn))

/-- Under the C3 hypotheses the id/URL extraction yields `(None, None)`. -/
theorem extract_id_url_none (article : Node) (oa : List Node)
    (h1 : ∀ n ∈ anchors_with_href (content_container article).1, n.attr ("href") = some (""))
    (h2 : ∀ p, cd_parent article oa = some p →
      ∀ n ∈ anchors_with_href p, n.attr ("href") = some (""))
    (h3 : ∀ q, cd_article_ancestor article oa = some q →
      ∀ n ∈ anchors_with_href q, n.attr ("href") = some ("")) :
    extract_article_id_and_url (content_container article).1
      (cd_parent article oa) (cd_article_ancestor article oa) = (none, none) := by
  simp only [extract_article_id_and_url]
  by_cases h0 : (anchors_with_href (content_container article).1).isEmpty
  · simp only [h0, if_pos]
    cases hp : cd_parent article oa with
    | none =>
      simp only [h0]
      cases hq : cd_article_ancestor article oa with
      | none => exact first_usable_link_all_empty _ h1
      | some q => exact first_usable_link_all_empty _ (h3 q hq)
    | some p =>
      by_cases hp0 : (anchors_with_href p).isEmpty
      · simp only [hp0, if_pos]
        cases hq : cd_article_ancestor article oa with
        | none => exact first_usable_link_all_empty _ (h2 p hp)
        | some q => exact first_usable_link_all_empty _ (h3 q hq)
      · simp only [hp0, if_neg, Bool.not_eq_true]
        exact first_usable_link_all_empty _ (h2 p hp)
  · simp only [h0, if_neg, Bool.not_eq_true]
    exact first_usable_link_all_empty _ h1

/-- Claim C3 (confirmed): if no anchor in the content container, in its
parent, or in the enclosing `article` element carries a non-empty `href`,
`parse_article` returns `None`. -/
theorem claim_C3 (config : ScraperConfig) (pd : String → Option String)
    (article : Node) (oa : List Node) (now : String)
    (h1 : ∀ n ∈ anchors_with_href (content_container article).1, n.attr ("href") = some (""))
    (h2 : ∀ p, cd_parent article oa = some p →
      ∀ n ∈ anchors_with_href p, n.attr ("href") = some (""))
    (h3 : ∀ q, cd_article_ancestor article oa = some q →
      ∀ n ∈ anchors_with_href q, n.attr ("href") = some ("")) :
    parse_article config pd article oa now = none := by
  have hext := extract_id_url_none article oa h1 h2 h3
  simp only [parse_article, hext, pyTruthy]
  rfl

/-- Witness for C3: a fragment whose single anchor has `href=""` parses to
`None`. -/
theorem claim_C3_witness :
    parse_article defaultScraperConfig (fun _ => none) domEmptyHref [] ("2025-01-01 10:00:00") =
      none := by
  have hpar : cd_parent domEmptyHref [] = none := rfl
  have hanc : cd_article_ancestor domEmptyHref [] = none := rfl
  exact claim_C3 defaultScraperConfig (fun _ => none) domEmptyHref [] ("2025-01-01 10:00:00")
    (by decide)
    (fun p hp => by rw [hpar] at hp; cases hp)
    (fun q hq => by rw [hanc] at hq; cases hq)

/-! ## Claim C4 -/

/-- Claim C4 (corrected): parsing is deterministic up to the construction
timestamp — re-stamping the `scraped_at` field of one parse gives exactly
the parse at the other clock reading; every other field is independent of
the clock. -/
theorem claim_C4_amended (config : ScraperConfig) (pd : String → Option String)
    (article : Node) (oa : List Node) (t1 t2 : String) :
    Option.map (fun a => { a with scraped_at := t2 }) (parse_article config pd article oa t1) =
      parse_article config pd article oa t2 := by
  simp only [parse_article]
  split
  · cases extract_title (content_container article).1 with
    | none => rfl
    | some title => rfl
  · rfl

/-- Counterexample to C4 as stated: the same fragment parsed at two clock
readings one second apart yields records differing in `scraped_at`. -/
theorem claim_C4_counterexample :
    parse_article defaultScraperConfig (fun _ => none) domC9 [] ("2025-01-01 10:00:00") ≠
      parse_article defaultScraperConfig (fun _ => none) domC9 [] ("2025-01-01 10:00:01") := by
  decide

/-! ## Claim C5 -/

/-- Claim C5 (confirmed): when `scrape_article_contents` produces an
enriched record, it equals the pre-enrichment record in every field except
`content`, which becomes the extracted string; the original record is left
intact (records are immutable values).  The `N/A` side conditions hold for
every record the parser can emit, since its URL fields have already passed
`validate_urls`. -/
theorem claim_C5 (a : Article) (content : Option String) (b : Article)
    (h : enrich_step a content = some b)
    (h1 : a.article_url ≠ some ("N/A")) (h2 : a.source_url ≠ some ("N/A"))
    (h3 : a.image_url ≠ some ("N/A")) :
    ∃ c, content = some c ∧ b = { a with content := some c } := by
  cases content with
  | none => simp [enrich_step] at h
  | some c =>
    refine ⟨c, rfl, ?_⟩
    simp only [enrich_step] at h
    by_cases hc : c ≠ ""
    · rw [if_pos hc] at h
      cases h
      simp only [enrich_with_content, validate_urls, if_neg h1, if_neg h2, if_neg h3]
    · rw [if_neg hc] at h
      cases h

/-- Witness for C5 at a concrete record and content string. -/
theorem claim_C5_witness :
    ∃ c, (some ("full body text") : Option String) = some c ∧
      enrich_with_content (articleC9 ("ai") ("2025-01-01 10:00:00")) ("full body text") =
        { articleC9 ("ai") ("2025-01-01 10:00:00") with content := some c } := by
  have h := claim_C5 (articleC9 ("ai") ("2025-01-01 10:00:00")) (some ("full body text"))
    (enrich_with_content (articleC9 ("ai") ("2025-01-01 10:00:00")) ("full body text"))
    (by decide) (by decide) (by decide) (by decide)
  exact h

/-! ## Claim C6 -/

/-- Counterexample to C6 as stated: a `max_scrolls` of 0 is rejected by the
positive-integer validator, so such a configuration is not accepted; and
were the loop run with `max_scrolls = 0` anyway, it would return no articles
at all — not the first-page article set, which here is non-empty — with zero
scroll iterations. -/
theorem claim_C6_counterexample :
    validate_positive_int 0 = false ∧
    scrape_article_list 5 0 true pagesC6 = ([], 0) ∧
    (listing_process_elements 5 (pagesC6 0) [] []).1 = [articleC6] := by
  decide

/-- Claim C6 (corrected): `ScraperConfig` rejects `max_scrolls = 0` at
construction; if the listing crawl is nevertheless run with `max_scrolls =
0`, the loop body never executes — zero scroll actions are performed and the
empty list is returned (the first page is not even parsed). -/
theorem claim_C6_amended :
    validate_positive_int 0 = false ∧
    ∀ (num_articles : Nat) (navOk : Bool) (pages : Nat → List (Option Article)),
      scrape_article_list num_articles 0 navOk pages = ([], 0) := by
  refine ⟨by decide, ?_⟩
  intro num navOk pages
  cases navOk with
  | false => rfl
  | true => rfl

/-! ## Claim C7 -/

/-- Counterexample to C7 as stated: an HTML-derived content text can be the
empty string (a selector matching pure boilerplate survives selection but is
erased by the cleanup), which is shorter than 200 characters, yet the guard
`if content and len(content) < 200` skips the script-evaluation fallback
because `''` is falsy. -/
theorem claim_C7_counterexample :
    extract_content_from_html [some ("Please enable JavaScript")] [] [] = some ("") ∧
    ("" : String).length < 200 ∧
    (contentLengthFallback (some ("")) (some (String.mk (List.replicate 300 ('x'))))).2 = false ∧
    (contentLengthFallback (some ("")) (some (String.mk (List.replicate 300 ('x'))))).1 =
      some ("") := by
  decide

/-- Claim C7 (corrected): the script-evaluation fallback is attempted exactly
when the HTML-derived content is non-empty and shorter than 200 characters,
and its result replaces the HTML-derived text exactly when the fallback ran,
its result is truthy, and that result is strictly longer. -/
theorem claim_C7_amended (content js : Option String) :
    ((contentLengthFallback content js).2 = true ↔
      ∃ s, content = some s ∧ s ≠ "" ∧ s.length < 200) ∧
    (contentLengthFallback content js).1 =
      (if (contentLengthFallback content js).2 = true ∧ pyTruthy js = true ∧
          (content.getD ("")).length < (js.getD ("")).length
        then js else content) := by
  cases content with
  | none => simp [contentLengthFallback]
  | some s =>
    by_cases hs : s ≠ "" ∧ s.length < 200
    · cases js with
      | none =>
        simp only [contentLengthFallback, if_pos hs]
        constructor
        · simp only [true_iff]
          exact ⟨s, rfl, hs.1, hs.2⟩
        · simp [pyTruthy]
      | some t =>
        by_cases ht : t ≠ "" ∧ s.length < t.length
        · simp only [contentLengthFallback, if_pos hs, if_pos ht]
          constructor
          · simp only [true_iff]
            exact ⟨s, rfl, hs.1, hs.2⟩
          · have htr : pyTruthy (some t) = true := by
              simp [pyTruthy, ht.1]
            simp [htr, ht.2]
        · simp only [contentLengthFallback, if_pos hs, if_neg ht]
          constructor
          · simp only [true_iff]
            exact ⟨s, rfl, hs.1, hs.2⟩
          · by_cases ht0 : t = ""
            · have htr : pyTruthy (some t) = false := by
                simp [pyTruthy, ht0]
              simp [htr]
            · have hlen : ¬ s.length < t.length := fun hl => ht ⟨ht0, hl⟩
              simp [hlen]
    · simp only [contentLengthFallback, if_neg hs]
      constructor
      · constructor
        · intro hb
          exact absurd hb (by decide)
        · rintro ⟨s2, hs2, hne, hlt⟩
          cases hs2
          exact absurd ⟨hne, hlt⟩ hs
      · rfl

/-! ## Claim C8 -/

/-- Modelled from the claim's words (spec side of the refinement): every
numeric range satisfies `lo ≤ hi` and non-negativity, the category is
non-empty, and every positive-integer field — including the per-navigation
`timeout` — is positive. -/
def spec_config_invariants (c : ScraperConfig) : Prop :=
  (0 < c.num_articles ∧ 0 < c.max_scrolls ∧ 0 < c.retry_count ∧ 0 < c.batch_size ∧
    0 < c.timeout) ∧
  (c.scroll_iterations_range.1 ≤ c.scroll_iterations_range.2 ∧ 0 ≤ c.scroll_iterations_range.1) ∧
  (c.scroll_distance_range.1 ≤ c.scroll_distance_range.2 ∧ 0 ≤ c.scroll_distance_range.1) ∧
  (c.mouse_movements_range.1 ≤ c.mouse_movements_range.2 ∧ 0 ≤ c.mouse_movements_range.1) ∧
  (c.sleep_scroll_range.1 ≤ c.sleep_scroll_range.2 ∧ 0 ≤ c.sleep_scroll_range.1) ∧
  (c.sleep_mouse_range.1 ≤ c.sleep_mouse_range.2 ∧ 0 ≤ c.sleep_mouse_range.1) ∧
  (c.url_delay_range.1 ≤ c.url_delay_range.2 ∧ 0 ≤ c.url_delay_range.1) ∧
  c.category ≠ ""

/-- The default configuration with `timeout := 0`. -/
def cfgTimeoutZero : ScraperConfig := { defaultScraperConfig with timeout := 0 }

/-- Counterexample to C8 as stated: `timeout` carries no validator, so a
configuration with `timeout = 0` is accepted at construction although the
claimed invariants reject it — acceptance is not equivalent to the claimed
invariants. -/
theorem claim_C8_counterexample :
    ¬ (scraper_config_valid cfgTimeoutZero = true ↔ spec_config_invariants cfgTimeoutZero) := by
  intro hiff
  have hvalid : scraper_config_valid cfgTimeoutZero = true := by
    norm_num [scraper_config_valid, cfgTimeoutZero, defaultScraperConfig, validate_positive_int,
      validate_int_range, validate_float_range, validate_non_empty_list,
      validate_non_empty_string]
    decide
  have hspec := hiff.mp hvalid
  have htimeout : (0 : Int) < cfgTimeoutZero.timeout := hspec.1.2.2.2.2
  norm_num [cfgTimeoutZero] at htimeout

/-- Claim C8 (corrected): construction succeeds iff the four positive-int
fields (`num_articles`, `max_scrolls`, `retry_count`, `batch_size`) are
positive, the integer ranges have `lo ≤ hi` with a strictly positive lower
bound, the float ranges have `lo ≤ hi` with a non-negative lower bound, the
three selector/agent/viewport lists are non-empty, and the category is a
non-empty string; `timeout` is not validated. -/
theorem claim_C8_amended (c : ScraperConfig) :
    scraper_config_valid c = true ↔
      ((0 < c.num_articles ∧ 0 < c.max_scrolls ∧ 0 < c.retry_count ∧ 0 < c.batch_size) ∧
       (c.scroll_iterations_range.1 ≤ c.scroll_iterations_range.2 ∧
         0 < c.scroll_iterations_range.1) ∧
       (c.scroll_distance_range.1 ≤ c.scroll_distance_range.2 ∧
         0 < c.scroll_distance_range.1) ∧
       (c.mouse_movements_range.1 ≤ c.mouse_movements_range.2 ∧
         0 < c.mouse_movements_range.1) ∧
       (c.sleep_scroll_range.1 ≤ c.sleep_scroll_range.2 ∧ 0 ≤ c.sleep_scroll_range.1) ∧
       (c.sleep_mouse_range.1 ≤ c.sleep_mouse_range.2 ∧ 0 ≤ c.sleep_mouse_range.1) ∧
       (c.url_delay_range.1 ≤ c.url_delay_range.2 ∧ 0 ≤ c.url_delay_range.1) ∧
       c.user_agents ≠ [] ∧ c.viewport_sizes ≠ [] ∧ c.content_selectors ≠ [] ∧
       c.category ≠ "") := by
  simp only [scraper_config_valid, validate_positive_int, validate_int_range,
    validate_float_range, validate_non_empty_list, validate_non_empty_string,
    Bool.and_eq_true, decide_eq_true_eq, Bool.not_eq_true', List.isEmpty_eq_false,
    beq_eq_false_iff_ne, ne_eq]
  tauto

/-! ## Claim C9 -/

/-- Claim C9 (confirmed): on a single `article.post-card` containing one
anchor with `href="/my-post"` and text `Hello`, no time element and no
taxonomy links, `parse_article` returns a record with
`article_id = "my-post"`, an `article_url` ending in `/my-post`,
`relative_time` equal to the `'N/A'` sentinel, and `categories` equal to the
singleton of the configured category slug. -/
theorem claim_C9 (config : ScraperConfig) (pd : String → Option String)
    (oa : List Node) (now : String) (h : config.category ≠ "") :
    parse_article config pd domC9 oa now = some (articleC9 config.category now) := by
  have hb : (config.category == "") = false := by
    simpa using h
  simp [parse_article, domC9, articleC9, content_container, cd_parent, cd_article_ancestor,
    extract_article_id_and_url, anchors_with_href, first_usable_link, mkIdUrl, lastSegMatch,
    pySplitSlash, chSplitP, pyStartswith, extract_title, extract_source_info, extract_time_info,
    extract_categories_and_tags, extract_image_url, findFirstWithAnc, findFirstNode, findAll,
    Node.elements, Node.desc, Node.descList, Node.attr, Node.tagName, Node.hasClass,
    Node.classTokens, Node.isElem, Node.getTextStrip, Node.rawText, Node.strings, pyStrip, chTrim,
    pyTruthy, validate_urls, timePhraseHit, isSub, pyLower, pySplitWs, domainMatch, domainMatchAux,
    domainAt, String.join, hb]
  decide

/-- Witness for C9 at the default configuration. -/
theorem claim_C9_witness :
    parse_article defaultScraperConfig (fun _ => none) domC9 [] ("2025-01-01 10:00:00") =
      some (articleC9 (defaultScraperConfig.category) ("2025-01-01 10:00:00")) :=
  claim_C9 defaultScraperConfig (fun _ => none) [] ("2025-01-01 10:00:00") (by decide)

/-! ## Claim C10 -/

/-- Prefixing the site origin always yields a URL starting with `http`. -/
theorem origin_prefix_http (x : String) :
    pyStartswith ("https://www.techinasia.com" ++ x) ("http") = true := rfl

/-- The URL produced by the usable-link branch always starts with `http`:
either the href already did, or the `https://www.techinasia.com` origin was
prefixed. -/
theorem first_usable_link_http :
    ∀ (links : List Node) (i : Option String) (u : String),
      first_usable_link links = (i, some u) → pyStartswith u ("http") = true := by
  intro links
  induction links with
  | nil =>
    intro i u h
    simp [first_usable_link] at h
  | cons l rest ih =>
    intro i u h
    simp only [first_usable_link] at h
    cases hattr : l.attr ("href") with
    | none =>
      simp only [hattr] at h
      exact ih i u h
    | some href =>
      simp only [hattr] at h
      by_cases hc : href ≠ "" ∧ pyStrip href ≠ ""
      · rw [if_pos hc] at h
        simp only [mkIdUrl, Prod.mk.injEq, Option.some.injEq] at h
        obtain ⟨-, h2⟩ := h
        subst h2
        cases hps : pyStartswith href ("http") <;> simp [hps, origin_prefix_http]
      · rw [if_neg hc] at h
        exact ih i u h

/-- Lifting `first_usable_link_http` through `_extract_article_id_and_url`. -/
theorem extract_id_url_http (cd : Node) (par : Option Node) (artAnc : Option Node)
    (i : Option String) (u : String)
    (h : extract_article_id_and_url cd par artAnc = (i, some u)) :
    pyStartswith u ("http") = true := by
  simp only [extract_article_id_and_url] at h
  exact first_usable_link_http _ _ _ h

/-- Claim C10 (confirmed): every record returned by `parse_article` has a
non-null, absolute `article_url` starting with `http` — relative hrefs are
prefixed with the site origin before the record is built. -/
theorem claim_C10 (config : ScraperConfig) (pd : String → Option String)
    (article : Node) (oa : List Node) (now : String) (a : Article)
    (h : parse_article config pd article oa now = some a) :
    ∃ u, a.article_url = some u ∧ pyStartswith u ("http") = true := by
  simp only [parse_article] at h
  set idurl := extract_article_id_and_url (content_container article).1
    (cd_parent article oa) (cd_article_ancestor article oa) with hidurl
  by_cases hg : (pyTruthy idurl.1 && pyTruthy idurl.2) = true
  · rw [if_pos hg] at h
    have hu2 : ∃ u0, idurl.2 = some u0 := by
      have hb := (Bool.and_eq_true _ _ |>.mp hg).2
      cases hv : idurl.2 with
      | none => rw [hv] at hb; exact absurd hb (by decide)
      | some u0 => exact ⟨u0, rfl⟩
    obtain ⟨u0, hu⟩ := hu2
    have hext : extract_article_id_and_url (content_container article).1
        (cd_parent article oa) (cd_article_ancestor article oa) = (idurl.1, some u0) := by
      rw [← hu, ← hidurl]
    have hhttp : pyStartswith u0 ("http") = true :=
      extract_id_url_http _ _ _ idurl.1 u0 hext
    cases hti : extract_title (content_container article).1 with
    | none =>
      rw [hti] at h
      cases h
    | some title =>
      rw [hti] at h
      have ha := (Option.some.injEq _ _).mp h
      have hurl : a.article_url = validate_urls idurl.2 := by
        rw [← ha]
      have hna : u0 ≠ "N/A" := by
        intro hcon
        rw [hcon] at hhttp
        exact absurd hhttp (by decide)
      refine ⟨u0, ?_, hhttp⟩
      rw [hurl, hu, validate_urls, if_neg (by simpa using hna)]
  · rw [if_neg hg] at h
    cases h

/-- Witness for C10 at the parse of the concrete C9 fragment. -/
theorem claim_C10_witness :
    ∃ u, (articleC9 ("artificial-intelligence") ("2025-01-01 10:00:00")).article_url = some u ∧
      pyStartswith u ("http") = true :=
  claim_C10 defaultScraperConfig (fun _ => none) domC9 [] ("2025-01-01 10:00:00")
    (articleC9 ("artificial-intelligence") ("2025-01-01 10:00:00")) (by decide)
